import Mathlib

/-!
# jetson-utils : pixel formats and the Python image I/O bindings

A shallow embedding of

* `image/imageFormat.h` : the `imageFormat` enumeration and the format functions it
  declares (their bodies live in `imageFormat.inl`, which is not part of the sources at
  hand; they are modelled from the specification and marked so), and
* `python/bindings/PyImageIO.cpp` : `PyImageIO_LoadRGBA` and `PyImageIO_SaveRGBA`.

The bindings talk to collaborators that are declared elsewhere (the CPython argument
parser, the disk codec of `loadImage.h`, the capsule bridge of `PyCUDA.h`).  They are taken
as parameters, so every theorem about a binding holds for whatever these collaborators do.
Each binding returns its `PyObject*` result (`none` for `NULL`) together with the ordered
list of collaborator calls it made.
-/

namespace JetsonUtils

/-! ## `enum imageFormat` (imageFormat.h, lines 37-63)

A C enumerator without an initialiser is the previous enumerator plus one. -/

/-- Values of the C enumeration `imageFormat`. -/
abbrev imageFormat := Nat

def FORMAT_RGB8 : imageFormat := 0
def FORMAT_RGB32 : imageFormat := FORMAT_RGB8 + 1
def FORMAT_RGBA8 : imageFormat := FORMAT_RGB32 + 1
def FORMAT_RGBA32 : imageFormat := FORMAT_RGBA8 + 1
def FORMAT_YUYV : imageFormat := FORMAT_RGBA32 + 1
def FORMAT_YUY2 : imageFormat := FORMAT_YUYV
def FORMAT_UYVY : imageFormat := FORMAT_YUY2 + 1
def FORMAT_I420 : imageFormat := FORMAT_UYVY + 1
def FORMAT_YV12 : imageFormat := FORMAT_I420 + 1
def FORMAT_NV12 : imageFormat := FORMAT_YV12 + 1
def FORMAT_GRAY8 : imageFormat := FORMAT_NV12 + 1
def FORMAT_GRAY32 : imageFormat := FORMAT_GRAY8 + 1
def FORMAT_COUNT : imageFormat := FORMAT_GRAY32 + 1
def FORMAT_UNKNOWN : imageFormat := 999
def FORMAT_DEFAULT : imageFormat := FORMAT_RGBA32

/-- The eleven real formats, in the order of their declaration. -/
def realFormats : List imageFormat :=
  [FORMAT_RGB8, FORMAT_RGB32, FORMAT_RGBA8, FORMAT_RGBA32, FORMAT_YUYV, FORMAT_UYVY,
   FORMAT_I420, FORMAT_YV12, FORMAT_NV12, FORMAT_GRAY8, FORMAT_GRAY32]

/-! ## The format functions declared in imageFormat.h (bodies in imageFormat.inl) -/

/-- Failures of the format registry named by the specification. -/
inductive FormatError
  | UnknownFormat
  | InvalidDimensions
  deriving DecidableEq, Repr

deriving instance DecidableEq for Except

/-- Modelled from the spec: the body of `imageFormatDepth` (imageFormat.inl) is missing.
The specification gives the effective depth 12 for I420/YV12/NV12, 16 for YUYV/UYVY, 128
for RGBA32 (four 32-bit float channels) and 4 bytes per pixel for RGBA8; the remaining
members follow their element shapes (3-channel 8-bit, 3-channel float, one 8-bit channel,
one float channel).  Any value that is not a real format fails with `UnknownFormat`. -/
def imageFormatDepth (format : imageFormat) : Except FormatError Nat :=
  if format = FORMAT_RGB8 then .ok 24
  else if format = FORMAT_RGB32 then .ok 96
  else if format = FORMAT_RGBA8 then .ok 32
  else if format = FORMAT_RGBA32 then .ok 128
  else if format = FORMAT_YUYV then .ok 16
  else if format = FORMAT_UYVY then .ok 16
  else if format = FORMAT_I420 then .ok 12
  else if format = FORMAT_YV12 then .ok 12
  else if format = FORMAT_NV12 then .ok 12
  else if format = FORMAT_GRAY8 then .ok 8
  else if format = FORMAT_GRAY32 then .ok 32
  else .error .UnknownFormat

/-- The YUV 4:2:0 planar formats. -/
def isPlanar420 (format : imageFormat) : Bool :=
  format == FORMAT_I420 || format == FORMAT_YV12 || format == FORMAT_NV12

/-- Modelled from the spec: the body of `imageFormatSize` (imageFormat.inl) is missing.
The specification fails with `InvalidDimensions` when width or height is zero or negative
and with `UnknownFormat` for a value that has no depth; I420/YV12/NV12 take
`width*height + 2*((width+1)/2)*((height+1)/2)`, every other format
`width*height*bitsPerPixel/8`.  The formula is the specification's, over unbounded integers. -/
def imageFormatSize (format : imageFormat) (width height : Int) : Except FormatError Int :=
  if width ≤ 0 ∨ height ≤ 0 then .error .InvalidDimensions
  else
    match imageFormatDepth format with
    | .error e => .error e
    | .ok depth =>
      if isPlanar420 format then
        .ok (width * height + 2 * ((width + 1) / 2) * ((height + 1) / 2))
      else
        .ok (width * height * (depth : Int) / 8)

/-- Modelled from the spec: the body of `imageFormatToStr` (imageFormat.inl) is missing.
The specification returns the canonical lowercase name of every real member and fails with
`UnknownFormat` otherwise; the names are the members' names of the specification's data
model in lower case. -/
def imageFormatToStr (format : imageFormat) : Except FormatError String :=
  if format = FORMAT_RGB8 then .ok "rgb8"
  else if format = FORMAT_RGB32 then .ok "rgb32"
  else if format = FORMAT_RGBA8 then .ok "rgba8"
  else if format = FORMAT_RGBA32 then .ok "rgba32"
  else if format = FORMAT_YUYV then .ok "yuyv"
  else if format = FORMAT_UYVY then .ok "uyvy"
  else if format = FORMAT_I420 then .ok "i420"
  else if format = FORMAT_YV12 then .ok "yv12"
  else if format = FORMAT_NV12 then .ok "nv12"
  else if format = FORMAT_GRAY8 then .ok "gray8"
  else if format = FORMAT_GRAY32 then .ok "gray32"
  else .error .UnknownFormat

/-- Lower-case form of a name, character by character. -/
def lowerName (str : String) : List Char := str.data.map Char.toLower

/-- Modelled from the spec: the body of `imageFormatFromStr` (imageFormat.inl) is missing.
The specification looks the name up without regard to case over the closed set of names,
the alias `yuy2` collapsing onto YUYV, and returns the UNKNOWN sentinel when nothing
matches; it never fails. -/
def imageFormatFromStr (str : String) : imageFormat :=
  let s := lowerName str
  if s = "rgb8".data then FORMAT_RGB8
  else if s = "rgb32".data then FORMAT_RGB32
  else if s = "rgba8".data then FORMAT_RGBA8
  else if s = "rgba32".data then FORMAT_RGBA32
  else if s = "yuyv".data then FORMAT_YUYV
  else if s = "yuy2".data then FORMAT_YUY2
  else if s = "uyvy".data then FORMAT_UYVY
  else if s = "i420".data then FORMAT_I420
  else if s = "yv12".data then FORMAT_YV12
  else if s = "nv12".data then FORMAT_NV12
  else if s = "gray8".data then FORMAT_GRAY8
  else if s = "gray32".data then FORMAT_GRAY32
  else FORMAT_UNKNOWN

/-- The name of a format fed back to the lookup; `none` when the format has no name. -/
def nameRoundTrip (format : imageFormat) : Option imageFormat :=
  match imageFormatToStr format with
  | .ok name => some (imageFormatFromStr name)
  | .error _ => none

/-! ## Values that cross the binding -/

/-- A native address; `0` is `NULL`. -/
abbrev Ptr := Nat

/-- A C `float`, kept as its IEEE-754 single-precision bit pattern.  The bindings only
hand such values on, they never compute with them. -/
structure float where
  bits : Nat
  deriving DecidableEq, Repr

/-- The literal `255.0f`. -/
def float_255 : float := ⟨0x437F0000⟩

/-- The integer `0` converted to `float`, as in `make_float2(0,max_pixel)`. -/
def float_0 : float := ⟨0⟩

/-- The CUDA vector type `float2`. -/
structure float2 where
  x : float
  y : float
  deriving DecidableEq, Repr

def make_float2 (x y : float) : float2 := ⟨x, y⟩

/-- Modelled from the spec: `PyCudaMemory` is declared in PyCUDA.h, which is missing.
PyImageIO.cpp reads its field `ptr`; `flag` keeps the boolean handed over at registration. -/
structure PyCudaMemory where
  ptr : Ptr
  flag : Bool
  deriving DecidableEq, Repr

/-- Modelled from the spec: `PyCudaImage` is declared in PyCUDA.h, which is missing.
PyImageIO.cpp reads `base.ptr`, `width`, `height` and `format`: the specification's
structured image (pointer, width, height, format). -/
structure PyCudaImage where
  base : PyCudaMemory
  width : Int
  height : Int
  format : imageFormat
  deriving DecidableEq, Repr

/-- Python objects as far as the bindings meet them. -/
inductive PyObject
  | None
  | str (s : String)
  | long (v : Int)
  | pyfloat (v : float)
  | cudaMemory (mem : PyCudaMemory)
  | cudaImage (img : PyCudaImage)
  | foreign (id : Nat)
  | tuple (items : List PyObject)

/-- The macro `PYLONG_FROM_LONG` (PyLong_FromLong or PyInt_FromLong).  The source uses its
result unchecked. -/
def PYLONG_FROM_LONG (v : Int) : PyObject := .long v

/-- The CPython constructor `PyTuple_Pack`.  The source returns its result as it is. -/
def PyTuple_Pack (items : List PyObject) : PyObject := .tuple items

/-- The object `Py_None` handed back by `Py_RETURN_NONE`. -/
def Py_None : PyObject := .None

/-- The arguments of a Python call: the positional tuple and the keyword dictionary. -/
structure PyArgs where
  args : List PyObject
  kwds : List (String × PyObject)

/-- The keyword list of `PyImageIO_SaveRGBA` (PyImageIO.cpp, line 85). -/
def kwlist : List String := ["filename", "image", "width", "height", "max_pixel", "quality"]

/-- The object a caller supplied for the parameter at position `i` of `kwlist`, by
position or by keyword. -/
def supplied (call : PyArgs) (i : Nat) : Option PyObject :=
  match call.args.get? i with
  | some o => some o
  | none =>
    match kwlist.get? i with
    | some name => (call.kwds.find? (fun kv => kv.1 == name)).map Prod.snd
    | none => none

/-- What `PyArg_ParseTupleAndKeywords(args, kwds, "sO|iif", kwlist, &filename, &capsule,
&width, &height, &max_pixel)` can store on success: the five destinations it is given
(PyImageIO.cpp, line 87).  `none` in an optional field means the destination was left
untouched. -/
structure SaveArgs where
  filename : String
  capsule : PyObject
  width : Option Int
  height : Option Int
  max_pixel : Option float

/-- The capsule bridge of PyCUDA.h as the bindings use it. -/
structure Bridge where
  PyCUDA_RegisterImage : Ptr → Int → Int → imageFormat → Bool → Option PyObject
  PyCUDA_GetImage : PyObject → Option PyCudaImage
  PyCUDA_GetMemory : PyObject → Option PyCudaMemory

/-- Everything the bindings call that is declared outside PyImageIO.cpp. -/
structure Env where
  PyArg_ParseTuple : PyArgs → Option String
  PyArg_ParseTupleAndKeywords : PyArgs → Option SaveArgs
  loadImageRGBA : String → Option (Ptr × Int × Int)
  saveImage : String → Ptr → Int → Int → imageFormat → Int → float2 → Bool
  saveImageRGBA : String → Ptr → Int → Int → float → Int → Bool
  bridge : Bridge

/-- A collaborator call made by a binding, with what the collaborator answered.
`PyErr_SetString` keeps the literal that follows the prefix `LOG_PY_UTILS`, a string whose
definition is not among the sources; the exception type is `PyExc_Exception` throughout. -/
inductive Event
  | PyErr_SetString (msg : String)
  | loadImageRGBA (filename : String) (result : Option (Ptr × Int × Int))
  | PyCUDA_RegisterImage (ptr : Ptr) (width height : Int) (format : imageFormat)
      (flag : Bool) (result : Option PyObject)
  | PyCUDA_GetImage (object : PyObject) (result : Option PyCudaImage)
  | PyCUDA_GetMemory (object : PyObject) (result : Option PyCudaMemory)
  | saveImage (filename : String) (ptr : Ptr) (width height : Int) (format : imageFormat)
      (quality : Int) (range : float2) (result : Bool)
  | saveImageRGBA (filename : String) (ptr : Ptr) (width height : Int) (max_pixel : float)
      (quality : Int) (result : Bool)
  | Py_DECREF (object : PyObject)

/-- Modelled from the spec: the constant `IMAGE_RGBA32F` named at PyImageIO.cpp, line 52,
is not declared in imageFormat.h as given.  The specification's canonical format is RGBA
with a 32-bit float per channel, the member `FORMAT_RGBA32`. -/
def IMAGE_RGBA32F : imageFormat := FORMAT_RGBA32

/-! ## PyImageIO.cpp -/

/-- The binding `PyImageIO_LoadRGBA` (PyImageIO.cpp, lines 30-69). -/
def PyImageIO_LoadRGBA (env : Env) (call : PyArgs) : Option PyObject × List Event :=
  match env.PyArg_ParseTuple call with
  | none =>
    (none, [.PyErr_SetString "loadImageRGBA() failed to parse filename argument"])
  | some filename =>
    match env.loadImageRGBA filename with
    | none =>
      (none, [.loadImageRGBA filename none,
              .PyErr_SetString "loadImageRGBA() failed to load the image"])
    | some (imgPtr, width, height) =>
      match env.bridge.PyCUDA_RegisterImage imgPtr width height IMAGE_RGBA32F true with
      | none =>
        (none, [.loadImageRGBA filename (some (imgPtr, width, height)),
                .PyCUDA_RegisterImage imgPtr width height IMAGE_RGBA32F true none])
      | some capsule =>
        let pyWidth := PYLONG_FROM_LONG width
        let pyHeight := PYLONG_FROM_LONG height
        let tuple := PyTuple_Pack [capsule, pyWidth, pyHeight]
        (some tuple, [.loadImageRGBA filename (some (imgPtr, width, height)),
                      .PyCUDA_RegisterImage imgPtr width height IMAGE_RGBA32F true (some capsule),
                      .Py_DECREF capsule, .Py_DECREF pyWidth, .Py_DECREF pyHeight])

/-- The binding `PyImageIO_SaveRGBA` (PyImageIO.cpp, lines 73-140).  The block between
`#if 0` and `#endif` (lines 94-108) is not compiled and has no counterpart here. -/
def PyImageIO_SaveRGBA (env : Env) (call : PyArgs) : Option PyObject × List Event :=
  let width : Int := 0
  let height : Int := 0
  let quality : Int := 95
  let max_pixel : float := float_255
  match env.PyArg_ParseTupleAndKeywords call with
  | none =>
    (none, [.PyErr_SetString "saveImageRGBA() failed to parse args tuple"])
  | some parsed =>
    let filename := parsed.filename
    let capsule := parsed.capsule
    let width : Int := parsed.width.getD width
    let height : Int := parsed.height.getD height
    let max_pixel : float := parsed.max_pixel.getD max_pixel
    match env.bridge.PyCUDA_GetImage capsule with
    | some img =>
      let ok := env.saveImage filename img.base.ptr img.width img.height img.format quality
        (make_float2 float_0 max_pixel)
      let calls := [Event.PyCUDA_GetImage capsule (some img),
        Event.saveImage filename img.base.ptr img.width img.height img.format quality
          (make_float2 float_0 max_pixel) ok]
      if !ok then
        (none, calls ++ [.PyErr_SetString "saveImageRGBA() failed to save the image"])
      else
        (some Py_None, calls)
    | none =>
      match env.bridge.PyCUDA_GetMemory capsule with
      | none =>
        (none, [.PyCUDA_GetImage capsule none, .PyCUDA_GetMemory capsule none,
                .PyErr_SetString
                  "saveImageRGBA() wasn't passed a cudaImage or cudaMemory object"])
      | some mem =>
        let ok := env.saveImageRGBA filename mem.ptr width height max_pixel quality
        let calls := [Event.PyCUDA_GetImage capsule none,
          Event.PyCUDA_GetMemory capsule (some mem),
          Event.saveImageRGBA filename mem.ptr width height max_pixel quality ok]
        if !ok then
          (none, calls ++ [.PyErr_SetString "saveImageRGBA() failed to save the image"])
        else
          (some Py_None, calls)

/-! ## Reading a list of calls -/

/-- The encoder calls (`saveImage`, `saveImageRGBA`) of a list of calls, in order. -/
def encoderCalls (t : List Event) : List Event :=
  t.filter fun
    | .saveImage .. => true
    | .saveImageRGBA .. => true
    | _ => false

/-- The quality each encoder call was handed, in order. -/
def encoderQualities (t : List Event) : List Int :=
  t.filterMap fun
    | .saveImage _ _ _ _ _ quality _ _ => some quality
    | .saveImageRGBA _ _ _ _ _ quality _ => some quality
    | _ => none

/-- The lookups made through the bridge (`PyCUDA_GetImage`, `PyCUDA_GetMemory`), in order. -/
def bridgeLookups (t : List Event) : List Event :=
  t.filter fun
    | .PyCUDA_GetImage .. => true
    | .PyCUDA_GetMemory .. => true
    | _ => false

/-- The calls of `PyCUDA_RegisterImage`, in order. -/
def registerCalls (t : List Event) : List Event :=
  t.filter fun
    | .PyCUDA_RegisterImage .. => true
    | _ => false

/-- The handles that `PyCUDA_RegisterImage` gave out, in order. -/
def published (t : List Event) : List PyObject :=
  t.filterMap fun
    | .PyCUDA_RegisterImage _ _ _ _ _ (some handle) => some handle
    | _ => none

/-- The messages given to `PyErr_SetString`, in order. -/
def errorsSet (t : List Event) : List String :=
  t.filterMap fun
    | .PyErr_SetString msg => some msg
    | _ => none

/-- An encoder call that reported failure. -/
def reportsFailure : Event → Bool
  | .saveImage _ _ _ _ _ _ _ result => !result
  | .saveImageRGBA _ _ _ _ _ _ result => !result
  | _ => false

/-! ## The bridge of the specification -/

/-- Modelled from the spec: `PyCUDA_RegisterImage` (PyCUDA.cpp) is missing.  The
specification's `wrap` takes the buffer over and returns a structured-image handle holding
exactly its pointer, width, height and format. -/
def PyCUDA_RegisterImage (ptr : Ptr) (width height : Int) (format : imageFormat)
    (flag : Bool) : Option PyObject :=
  some (.cudaImage ⟨⟨ptr, flag⟩, width, height, format⟩)

/-- Modelled from the spec: `PyCUDA_GetImage` (PyCUDA.cpp) is missing.  The specification's
`unwrapImage` returns the fields of a structured-image handle and misses on anything else. -/
def PyCUDA_GetImage : PyObject → Option PyCudaImage
  | .cudaImage img => some img
  | _ => none

/-- Modelled from the spec: `PyCUDA_GetMemory` (PyCUDA.cpp) is missing.  The specification's
`unwrapMemory` returns the raw block of a memory handle and misses on anything else. -/
def PyCUDA_GetMemory : PyObject → Option PyCudaMemory
  | .cudaMemory mem => some mem
  | _ => none

/-- The bridge made of the three operations above. -/
def specBridge : Bridge := ⟨PyCUDA_RegisterImage, PyCUDA_GetImage, PyCUDA_GetMemory⟩

/-! ## Sample collaborators, used to run the bindings on concrete calls -/

/-- Reads a Python integer. -/
def asLong : Option PyObject → Option Int
  | some (.long v) => some v
  | _ => none

/-- Reads a Python float. -/
def asFloat : Option PyObject → Option float
  | some (.pyfloat v) => some v
  | _ => none

/-- A permissive stand-in for `PyArg_ParseTupleAndKeywords` with the format `sO|iif`: it
fills the five destinations from the first five entries of `kwlist`, by position or by
keyword, and accepts whatever else the call carries. -/
def sampleParseSave (call : PyArgs) : Option SaveArgs :=
  match supplied call 0, supplied call 1 with
  | some (.str filename), some capsule =>
    some ⟨filename, capsule, asLong (supplied call 2), asLong (supplied call 3),
      asFloat (supplied call 4)⟩
  | _, _ => none

/-- A stand-in for `PyArg_ParseTuple` with the format `s`. -/
def sampleParseLoad (call : PyArgs) : Option String :=
  match call.args with
  | [.str filename] => some filename
  | _ => none

/-- A decoder that knows one file, a 4 x 2 image at address 4096. -/
def sampleLoad (filename : String) : Option (Ptr × Int × Int) :=
  if filename = "x.png" then some (4096, 4, 2) else none

/-- An encoder that refuses a null buffer and dimensions that are not positive. -/
def sampleEncode (ptr : Ptr) (width height : Int) : Bool :=
  decide (ptr ≠ 0 ∧ 0 < width ∧ 0 < height)

/-- The sample collaborators over the bridge of the specification. -/
def sampleEnv : Env where
  PyArg_ParseTuple := sampleParseLoad
  PyArg_ParseTupleAndKeywords := sampleParseSave
  loadImageRGBA := sampleLoad
  saveImage := fun _ ptr width height _ _ _ => sampleEncode ptr width height
  saveImageRGBA := fun _ ptr width height _ _ => sampleEncode ptr width height
  bridge := specBridge

/-- The sample collaborators over a bridge whose registration hands out no handle. -/
def sampleEnvNoHandle : Env :=
  { sampleEnv with
    bridge := ⟨fun _ _ _ _ _ => none, PyCUDA_GetImage, PyCUDA_GetMemory⟩ }

/-- A structured image of 4 x 2 pixels at address 4096. -/
def sampleImage : PyObject := .cudaImage ⟨⟨4096, true⟩, 4, 2, IMAGE_RGBA32F⟩

/-- A raw memory block at address 8192. -/
def sampleMemory : PyObject := .cudaMemory ⟨8192, true⟩

/-! ## The enumeration and the format functions -/

theorem FORMAT_COUNT_eq : FORMAT_COUNT = 11 := by decide

theorem mem_realFormats_iff (f : imageFormat) : f ∈ realFormats ↔ f < FORMAT_COUNT := by
  have h : realFormats = List.range FORMAT_COUNT := by decide
  rw [h, List.mem_range]

theorem nameRoundTrip_real (f : imageFormat) (hf : f < FORMAT_COUNT) :
    nameRoundTrip f = some f := by
  rw [FORMAT_COUNT_eq] at hf
  interval_cases f <;> decide

theorem imageFormatToStr_real (f : imageFormat) (hf : f < FORMAT_COUNT) :
    ∃ name, imageFormatToStr f = .ok name := by
  rw [FORMAT_COUNT_eq] at hf
  interval_cases f <;> exact ⟨_, rfl⟩

theorem imageFormatToStr_not_real (g : imageFormat) (hg : FORMAT_COUNT ≤ g) :
    imageFormatToStr g = .error .UnknownFormat := by
  have hne : ∀ k : imageFormat, k < FORMAT_COUNT → ¬ g = k := fun k hk hgk =>
    absurd (hgk ▸ hg) (Nat.not_le_of_lt hk)
  unfold imageFormatToStr
  rw [if_neg (hne _ (by decide)), if_neg (hne _ (by decide)), if_neg (hne _ (by decide)),
    if_neg (hne _ (by decide)), if_neg (hne _ (by decide)), if_neg (hne _ (by decide)),
    if_neg (hne _ (by decide)), if_neg (hne _ (by decide)), if_neg (hne _ (by decide)),
    if_neg (hne _ (by decide)), if_neg (hne _ (by decide))]

/-- C10: the eleven real formats RGB8, RGB32, RGBA8, RGBA32, YUYV, UYVY, I420, YV12, NV12,
GRAY8, GRAY32 carry pairwise distinct values that are exactly 0 .. FORMAT_COUNT-1, with
FORMAT_COUNT = 11; FORMAT_YUY2 equals FORMAT_YUYV, FORMAT_DEFAULT equals FORMAT_RGBA32, and
the sentinel FORMAT_UNKNOWN, 999, differs from every real format. -/
theorem imageFormat_enumeration :
    realFormats = List.range FORMAT_COUNT ∧ FORMAT_COUNT = 11 ∧ realFormats.length = 11 ∧
    realFormats.Nodup ∧
    FORMAT_YUY2 = FORMAT_YUYV ∧ FORMAT_DEFAULT = FORMAT_RGBA32 ∧ FORMAT_UNKNOWN = 999 ∧
    (∀ f ∈ realFormats, f ≠ FORMAT_UNKNOWN) := by
  decide

/-- C4: imageFormatDepth gives every real format a depth; it is 12 for each of I420, YV12
and NV12, 16 for YUYV (the same value as YUY2) and for UYVY, and 128 for RGBA32. -/
theorem imageFormatDepth_values :
    imageFormatDepth FORMAT_I420 = .ok 12 ∧ imageFormatDepth FORMAT_YV12 = .ok 12 ∧
    imageFormatDepth FORMAT_NV12 = .ok 12 ∧ imageFormatDepth FORMAT_YUYV = .ok 16 ∧
    imageFormatDepth FORMAT_YUY2 = .ok 16 ∧ imageFormatDepth FORMAT_UYVY = .ok 16 ∧
    imageFormatDepth FORMAT_RGBA32 = .ok 128 ∧
    (∀ f ∈ realFormats, imageFormatDepth f ≠ .error .UnknownFormat) := by
  decide

/-- C5: for every real format f, the name that imageFormatToStr gives f is mapped back to f
by imageFormatFromStr, and no other value of the enumeration, real or not, gets the name
of f. -/
theorem imageFormat_name_roundtrip (f : imageFormat) (hf : f < FORMAT_COUNT) :
    (∃ name, imageFormatToStr f = .ok name ∧ imageFormatFromStr name = f) ∧
    (∀ g, imageFormatToStr f = imageFormatToStr g → f = g) := by
  have hrt := nameRoundTrip_real f hf
  obtain ⟨name, hname⟩ := imageFormatToStr_real f hf
  refine ⟨⟨name, hname, ?_⟩, ?_⟩
  · simpa [nameRoundTrip, hname] using hrt
  · intro g hfg
    have hg : g < FORMAT_COUNT := by
      by_contra hge
      rw [imageFormatToStr_not_real g (Nat.le_of_not_lt hge), hname] at hfg
      exact Except.noConfusion hfg
    have hrg := nameRoundTrip_real g hg
    simp only [nameRoundTrip, ← hfg, hname] at hrt hrg
    exact Option.some.inj (hrt.symm.trans hrg)

theorem imageFormat_name_roundtrip_witness :
    FORMAT_NV12 < FORMAT_COUNT ∧
    ((∃ name, imageFormatToStr FORMAT_NV12 = .ok name ∧ imageFormatFromStr name = FORMAT_NV12) ∧
     (∀ g, imageFormatToStr FORMAT_NV12 = imageFormatToStr g → FORMAT_NV12 = g)) :=
  ⟨by decide, imageFormat_name_roundtrip FORMAT_NV12 (by decide)⟩

/-- C3: for width and height at least 1, imageFormatSize returns
width*height + 2*((width+1)/2)*((height+1)/2) for each of I420, YV12 and NV12, and
width*height*depth/8 for every other real format, depth being its imageFormatDepth; so the
size of a 3 x 3 I420 image is 17 and the size of a 4 x 2 RGBA8 image is 32. -/
theorem imageFormatSize_formula (width height : Int) (hw : 1 ≤ width) (hh : 1 ≤ height) :
    (∀ f, f = FORMAT_I420 ∨ f = FORMAT_YV12 ∨ f = FORMAT_NV12 →
      imageFormatSize f width height
        = .ok (width * height + 2 * ((width + 1) / 2) * ((height + 1) / 2))) ∧
    (∀ f, f < FORMAT_COUNT → isPlanar420 f = false →
      ∃ depth : Nat, imageFormatDepth f = .ok depth ∧
        imageFormatSize f width height = .ok (width * height * (depth : Int) / 8)) ∧
    imageFormatSize FORMAT_I420 3 3 = .ok 17 ∧ imageFormatSize FORMAT_RGBA8 4 2 = .ok 32 := by
  have hdim : ¬ (width ≤ 0 ∨ height ≤ 0) := by omega
  refine ⟨?_, ?_, by decide, by decide⟩
  · intro f hf
    have hd : imageFormatDepth f = .ok 12 := by
      rcases hf with rfl | rfl | rfl <;> decide
    have hp : isPlanar420 f = true := by
      rcases hf with rfl | rfl | rfl <;> decide
    simp [imageFormatSize, hdim, hd, hp]
  · intro f hf hp
    rw [FORMAT_COUNT_eq] at hf
    have key : ∃ depth : Nat, imageFormatDepth f = .ok depth := by
      interval_cases f <;> exact ⟨_, rfl⟩
    obtain ⟨depth, hd⟩ := key
    exact ⟨depth, hd, by simp [imageFormatSize, hdim, hd, hp]⟩

theorem imageFormatSize_formula_witness :
    (1 : Int) ≤ 5 ∧ (1 : Int) ≤ 3 ∧
    imageFormatSize FORMAT_NV12 5 3 = .ok (5 * 3 + 2 * ((5 + 1) / 2) * ((3 + 1) / 2)) ∧
    (∃ depth : Nat, imageFormatDepth FORMAT_RGB8 = .ok depth ∧
      imageFormatSize FORMAT_RGB8 5 3 = .ok (5 * 3 * (depth : Int) / 8)) :=
  ⟨by decide, by decide,
   (imageFormatSize_formula 5 3 (by decide) (by decide)).1 FORMAT_NV12 (Or.inr (Or.inr rfl)),
   (imageFormatSize_formula 5 3 (by decide) (by decide)).2.1 FORMAT_RGB8 (by decide) (by decide)⟩

/-! ## PyImageIO_SaveRGBA, branch by branch -/

theorem SaveRGBA_of_parse_none (env : Env) (call : PyArgs)
    (hparse : env.PyArg_ParseTupleAndKeywords call = none) :
    PyImageIO_SaveRGBA env call
      = (none, [.PyErr_SetString "saveImageRGBA() failed to parse args tuple"]) := by
  simp [PyImageIO_SaveRGBA, hparse]

theorem SaveRGBA_of_image (env : Env) (call : PyArgs) (parsed : SaveArgs) (img : PyCudaImage)
    (hparse : env.PyArg_ParseTupleAndKeywords call = some parsed)
    (himg : env.bridge.PyCUDA_GetImage parsed.capsule = some img) :
    PyImageIO_SaveRGBA env call
      = (if env.saveImage parsed.filename img.base.ptr img.width img.height img.format 95
            (make_float2 float_0 (parsed.max_pixel.getD float_255)) = true
         then some Py_None else none,
         [Event.PyCUDA_GetImage parsed.capsule (some img),
          Event.saveImage parsed.filename img.base.ptr img.width img.height img.format 95
            (make_float2 float_0 (parsed.max_pixel.getD float_255))
            (env.saveImage parsed.filename img.base.ptr img.width img.height img.format 95
              (make_float2 float_0 (parsed.max_pixel.getD float_255)))]
         ++ (if env.saveImage parsed.filename img.base.ptr img.width img.height img.format 95
              (make_float2 float_0 (parsed.max_pixel.getD float_255)) = true
             then [] else [.PyErr_SetString "saveImageRGBA() failed to save the image"])) := by
  simp only [PyImageIO_SaveRGBA, hparse, himg]
  cases env.saveImage parsed.filename img.base.ptr img.width img.height img.format 95
    (make_float2 float_0 (parsed.max_pixel.getD float_255)) <;> simp

theorem SaveRGBA_of_memory (env : Env) (call : PyArgs) (parsed : SaveArgs) (mem : PyCudaMemory)
    (hparse : env.PyArg_ParseTupleAndKeywords call = some parsed)
    (himg : env.bridge.PyCUDA_GetImage parsed.capsule = none)
    (hmem : env.bridge.PyCUDA_GetMemory parsed.capsule = some mem) :
    PyImageIO_SaveRGBA env call
      = (if env.saveImageRGBA parsed.filename mem.ptr (parsed.width.getD 0)
            (parsed.height.getD 0) (parsed.max_pixel.getD float_255) 95 = true
         then some Py_None else none,
         [Event.PyCUDA_GetImage parsed.capsule none,
          Event.PyCUDA_GetMemory parsed.capsule (some mem),
          Event.saveImageRGBA parsed.filename mem.ptr (parsed.width.getD 0)
            (parsed.height.getD 0) (parsed.max_pixel.getD float_255) 95
            (env.saveImageRGBA parsed.filename mem.ptr (parsed.width.getD 0)
              (parsed.height.getD 0) (parsed.max_pixel.getD float_255) 95)]
         ++ (if env.saveImageRGBA parsed.filename mem.ptr (parsed.width.getD 0)
              (parsed.height.getD 0) (parsed.max_pixel.getD float_255) 95 = true
             then [] else [.PyErr_SetString "saveImageRGBA() failed to save the image"])) := by
  simp only [PyImageIO_SaveRGBA, hparse, himg, hmem]
  cases env.saveImageRGBA parsed.filename mem.ptr (parsed.width.getD 0)
    (parsed.height.getD 0) (parsed.max_pixel.getD float_255) 95 <;> simp

theorem SaveRGBA_of_neither (env : Env) (call : PyArgs) (parsed : SaveArgs)
    (hparse : env.PyArg_ParseTupleAndKeywords call = some parsed)
    (himg : env.bridge.PyCUDA_GetImage parsed.capsule = none)
    (hmem : env.bridge.PyCUDA_GetMemory parsed.capsule = none) :
    PyImageIO_SaveRGBA env call
      = (none, [.PyCUDA_GetImage parsed.capsule none, .PyCUDA_GetMemory parsed.capsule none,
                .PyErr_SetString
                  "saveImageRGBA() wasn't passed a cudaImage or cudaMemory object"]) := by
  simp [PyImageIO_SaveRGBA, hparse, himg, hmem]

/-- Whatever the collaborators do, every encoder call of PyImageIO_SaveRGBA carries the
quality 95: the parser is given no destination for a quality. -/
theorem SaveRGBA_quality_is_95 (env : Env) (call : PyArgs) :
    ∀ q ∈ encoderQualities (PyImageIO_SaveRGBA env call).2, q = 95 := by
  cases hparse : env.PyArg_ParseTupleAndKeywords call with
  | none => simp [SaveRGBA_of_parse_none env call hparse, encoderQualities]
  | some parsed =>
    cases himg : env.bridge.PyCUDA_GetImage parsed.capsule with
    | some img =>
      rw [SaveRGBA_of_image env call parsed img hparse himg]
      split <;> simp [encoderQualities]
    | none =>
      cases hmem : env.bridge.PyCUDA_GetMemory parsed.capsule with
      | none => simp [SaveRGBA_of_neither env call parsed hparse himg hmem, encoderQualities]
      | some mem =>
        rw [SaveRGBA_of_memory env call parsed mem hparse himg hmem]
        split <;> simp [encoderQualities]

/-! ## Claims about PyImageIO_SaveRGBA -/

/-- C2: the claim asks that a raw memory block saved with a missing, zero or negative
width or height fails before any encoder call.  The compiled binding does not do so: for a
raw memory block saved without width and height, and for one saved with width -3, the
encoder saveImageRGBA is invoked all the same, with the dimensions 0 x 0 and -3 x 2. -/
theorem SaveRGBA_memory_dimensions_failing_input :
    sampleEnv.bridge.PyCUDA_GetImage sampleMemory = none ∧
    sampleEnv.bridge.PyCUDA_GetMemory sampleMemory = some ⟨8192, true⟩ ∧
    supplied ⟨[.str "y.jpg", sampleMemory], []⟩ 2 = none ∧
    supplied ⟨[.str "y.jpg", sampleMemory], []⟩ 3 = none ∧
    encoderCalls (PyImageIO_SaveRGBA sampleEnv ⟨[.str "y.jpg", sampleMemory], []⟩).2
      = [.saveImageRGBA "y.jpg" 8192 0 0 float_255 95 false] ∧
    encoderCalls
      (PyImageIO_SaveRGBA sampleEnv ⟨[.str "y.jpg", sampleMemory, .long (-3), .long 2], []⟩).2
      = [.saveImageRGBA "y.jpg" 8192 (-3) 2 float_255 95 false] :=
  ⟨rfl, rfl, rfl, rfl, rfl, rfl⟩

/-- C6: once the arguments are parsed, PyCUDA_GetImage is asked first.  For a structured
image the encoder saveImage is invoked exactly once, with the image's own pointer, width,
height and format and the range whose first component is the float 0 and whose second is
max_pixel (255.0 when none was parsed), whatever width and height were parsed, and
PyCUDA_GetMemory is not asked.  When PyCUDA_GetImage misses, PyCUDA_GetMemory is asked
next, and for a memory block saveImageRGBA is invoked exactly once with the memory pointer
and the parsed width and height. -/
theorem SaveRGBA_image_first (env : Env) (call : PyArgs) (parsed : SaveArgs)
    (hparse : env.PyArg_ParseTupleAndKeywords call = some parsed) :
    (∀ img, env.bridge.PyCUDA_GetImage parsed.capsule = some img →
      encoderCalls (PyImageIO_SaveRGBA env call).2
        = [.saveImage parsed.filename img.base.ptr img.width img.height img.format 95
            ⟨⟨0⟩, parsed.max_pixel.getD ⟨0x437F0000⟩⟩
            (env.saveImage parsed.filename img.base.ptr img.width img.height img.format 95
              ⟨⟨0⟩, parsed.max_pixel.getD ⟨0x437F0000⟩⟩)] ∧
      bridgeLookups (PyImageIO_SaveRGBA env call).2
        = [.PyCUDA_GetImage parsed.capsule (some img)]) ∧
    (env.bridge.PyCUDA_GetImage parsed.capsule = none →
      bridgeLookups (PyImageIO_SaveRGBA env call).2
        = [.PyCUDA_GetImage parsed.capsule none,
           .PyCUDA_GetMemory parsed.capsule (env.bridge.PyCUDA_GetMemory parsed.capsule)] ∧
      ∀ mem, env.bridge.PyCUDA_GetMemory parsed.capsule = some mem →
        encoderCalls (PyImageIO_SaveRGBA env call).2
          = [.saveImageRGBA parsed.filename mem.ptr (parsed.width.getD 0)
              (parsed.height.getD 0) (parsed.max_pixel.getD ⟨0x437F0000⟩) 95
              (env.saveImageRGBA parsed.filename mem.ptr (parsed.width.getD 0)
                (parsed.height.getD 0) (parsed.max_pixel.getD ⟨0x437F0000⟩) 95)]) := by
  refine ⟨?_, ?_⟩
  · intro img himg
    rw [SaveRGBA_of_image env call parsed img hparse himg]
    split <;> simp [encoderCalls, bridgeLookups, make_float2, float_0, float_255]
  · intro himg
    cases hmem : env.bridge.PyCUDA_GetMemory parsed.capsule with
    | none =>
      simp [SaveRGBA_of_neither env call parsed hparse himg hmem, bridgeLookups]
    | some mem =>
      rw [SaveRGBA_of_memory env call parsed mem hparse himg hmem]
      split <;> simp [encoderCalls, bridgeLookups, float_255]

theorem SaveRGBA_image_first_witness :
    sampleEnv.PyArg_ParseTupleAndKeywords
        ⟨[.str "y.jpg", sampleImage, .long 640, .long (-1)], []⟩
      = some ⟨"y.jpg", sampleImage, some 640, some (-1), none⟩ ∧
    sampleEnv.bridge.PyCUDA_GetImage sampleImage = some ⟨⟨4096, true⟩, 4, 2, 3⟩ ∧
    encoderCalls
        (PyImageIO_SaveRGBA sampleEnv
          ⟨[.str "y.jpg", sampleImage, .long 640, .long (-1)], []⟩).2
      = [.saveImage "y.jpg" 4096 4 2 3 95 ⟨⟨0⟩, ⟨0x437F0000⟩⟩ true] ∧
    bridgeLookups
        (PyImageIO_SaveRGBA sampleEnv
          ⟨[.str "y.jpg", sampleImage, .long 640, .long (-1)], []⟩).2
      = [.PyCUDA_GetImage sampleImage (some ⟨⟨4096, true⟩, 4, 2, 3⟩)] ∧
    encoderCalls
        (PyImageIO_SaveRGBA sampleEnv
          ⟨[.str "y.jpg", sampleImage],
           [("max_pixel", .pyfloat ⟨0x3F800000⟩), ("width", .long 9)]⟩).2
      = [.saveImage "y.jpg" 4096 4 2 3 95 ⟨⟨0⟩, ⟨0x3F800000⟩⟩ true] :=
  ⟨rfl, rfl,
   ((SaveRGBA_image_first sampleEnv ⟨[.str "y.jpg", sampleImage, .long 640, .long (-1)], []⟩
     ⟨"y.jpg", sampleImage, some 640, some (-1), none⟩ rfl).1
     ⟨⟨4096, true⟩, 4, 2, 3⟩ rfl).1,
   ((SaveRGBA_image_first sampleEnv ⟨[.str "y.jpg", sampleImage, .long 640, .long (-1)], []⟩
     ⟨"y.jpg", sampleImage, some 640, some (-1), none⟩ rfl).1
     ⟨⟨4096, true⟩, 4, 2, 3⟩ rfl).2,
   ((SaveRGBA_image_first sampleEnv
     ⟨[.str "y.jpg", sampleImage], [("max_pixel", .pyfloat ⟨0x3F800000⟩), ("width", .long 9)]⟩
     ⟨"y.jpg", sampleImage, some 9, none, some ⟨0x3F800000⟩⟩ rfl).1
     ⟨⟨4096, true⟩, 4, 2, 3⟩ rfl).1⟩

/-- C7: when both PyCUDA_GetImage and PyCUDA_GetMemory return nothing for the parsed
object, the call returns NULL with an exception set and no encoder is invoked (as it does
when the arguments do not parse at all); and whenever an encoder call reports failure the
call returns NULL with an exception set, not None. -/
theorem SaveRGBA_failures (env : Env) (call : PyArgs) :
    (∀ parsed, env.PyArg_ParseTupleAndKeywords call = some parsed →
      env.bridge.PyCUDA_GetImage parsed.capsule = none →
      env.bridge.PyCUDA_GetMemory parsed.capsule = none →
      (PyImageIO_SaveRGBA env call).1 = none ∧
      errorsSet (PyImageIO_SaveRGBA env call).2
        = ["saveImageRGBA() wasn't passed a cudaImage or cudaMemory object"] ∧
      encoderCalls (PyImageIO_SaveRGBA env call).2 = []) ∧
    (env.PyArg_ParseTupleAndKeywords call = none →
      (PyImageIO_SaveRGBA env call).1 = none ∧
      errorsSet (PyImageIO_SaveRGBA env call).2
        = ["saveImageRGBA() failed to parse args tuple"] ∧
      encoderCalls (PyImageIO_SaveRGBA env call).2 = []) ∧
    (∀ e ∈ (PyImageIO_SaveRGBA env call).2, reportsFailure e = true →
      (PyImageIO_SaveRGBA env call).1 = none ∧
      errorsSet (PyImageIO_SaveRGBA env call).2
        = ["saveImageRGBA() failed to save the image"]) := by
  refine ⟨?_, ?_, ?_⟩
  · intro parsed hparse himg hmem
    simp [SaveRGBA_of_neither env call parsed hparse himg hmem, errorsSet, encoderCalls]
  · intro hparse
    simp [SaveRGBA_of_parse_none env call hparse, errorsSet, encoderCalls]
  · cases hparse : env.PyArg_ParseTupleAndKeywords call with
    | none => simp [SaveRGBA_of_parse_none env call hparse, reportsFailure]
    | some parsed =>
      cases himg : env.bridge.PyCUDA_GetImage parsed.capsule with
      | some img =>
        rw [SaveRGBA_of_image env call parsed img hparse himg]
        cases env.saveImage parsed.filename img.base.ptr img.width img.height img.format 95
          (make_float2 float_0 (parsed.max_pixel.getD float_255)) <;>
          simp [reportsFailure, errorsSet]
      | none =>
        cases hmem : env.bridge.PyCUDA_GetMemory parsed.capsule with
        | none => simp [SaveRGBA_of_neither env call parsed hparse himg hmem, reportsFailure]
        | some mem =>
          rw [SaveRGBA_of_memory env call parsed mem hparse himg hmem]
          cases env.saveImageRGBA parsed.filename mem.ptr (parsed.width.getD 0)
            (parsed.height.getD 0) (parsed.max_pixel.getD float_255) 95 <;>
            simp [reportsFailure, errorsSet]

theorem SaveRGBA_failures_witness :
    sampleEnv.PyArg_ParseTupleAndKeywords ⟨[.str "y.jpg", .foreign 7], []⟩
      = some ⟨"y.jpg", .foreign 7, none, none, none⟩ ∧
    sampleEnv.bridge.PyCUDA_GetImage (.foreign 7) = none ∧
    sampleEnv.bridge.PyCUDA_GetMemory (.foreign 7) = none ∧
    ((PyImageIO_SaveRGBA sampleEnv ⟨[.str "y.jpg", .foreign 7], []⟩).1 = none ∧
     errorsSet (PyImageIO_SaveRGBA sampleEnv ⟨[.str "y.jpg", .foreign 7], []⟩).2
       = ["saveImageRGBA() wasn't passed a cudaImage or cudaMemory object"] ∧
     encoderCalls (PyImageIO_SaveRGBA sampleEnv ⟨[.str "y.jpg", .foreign 7], []⟩).2 = []) ∧
    reportsFailure (.saveImageRGBA "y.jpg" 8192 0 0 float_255 95 false) = true ∧
    ((PyImageIO_SaveRGBA sampleEnv ⟨[.str "y.jpg", sampleMemory], []⟩).1 = none ∧
     errorsSet (PyImageIO_SaveRGBA sampleEnv ⟨[.str "y.jpg", sampleMemory], []⟩).2
       = ["saveImageRGBA() failed to save the image"]) :=
  ⟨rfl, rfl, rfl,
   (SaveRGBA_failures sampleEnv ⟨[.str "y.jpg", .foreign 7], []⟩).1
     ⟨"y.jpg", .foreign 7, none, none, none⟩ rfl rfl rfl,
   rfl,
   (SaveRGBA_failures sampleEnv ⟨[.str "y.jpg", sampleMemory], []⟩).2.2
     (.saveImageRGBA "y.jpg" 8192 0 0 float_255 95 false)
     (List.Mem.tail _ (List.Mem.tail _ (List.Mem.head _))) rfl⟩

/-! ## Claims about PyImageIO_LoadRGBA -/

theorem LoadRGBA_of_parse_none (env : Env) (call : PyArgs)
    (hparse : env.PyArg_ParseTuple call = none) :
    PyImageIO_LoadRGBA env call
      = (none, [.PyErr_SetString "loadImageRGBA() failed to parse filename argument"]) := by
  simp [PyImageIO_LoadRGBA, hparse]

theorem LoadRGBA_of_load_none (env : Env) (call : PyArgs) (filename : String)
    (hparse : env.PyArg_ParseTuple call = some filename)
    (hload : env.loadImageRGBA filename = none) :
    PyImageIO_LoadRGBA env call
      = (none, [.loadImageRGBA filename none,
                .PyErr_SetString "loadImageRGBA() failed to load the image"]) := by
  simp [PyImageIO_LoadRGBA, hparse, hload]

theorem LoadRGBA_of_register_none (env : Env) (call : PyArgs) (filename : String)
    (p : Ptr) (w h : Int)
    (hparse : env.PyArg_ParseTuple call = some filename)
    (hload : env.loadImageRGBA filename = some (p, w, h))
    (hwrap : env.bridge.PyCUDA_RegisterImage p w h IMAGE_RGBA32F true = none) :
    PyImageIO_LoadRGBA env call
      = (none, [.loadImageRGBA filename (some (p, w, h)),
                .PyCUDA_RegisterImage p w h IMAGE_RGBA32F true none]) := by
  simp [PyImageIO_LoadRGBA, hparse, hload, hwrap]

theorem LoadRGBA_of_register_some (env : Env) (call : PyArgs) (filename : String)
    (p : Ptr) (w h : Int) (handle : PyObject)
    (hparse : env.PyArg_ParseTuple call = some filename)
    (hload : env.loadImageRGBA filename = some (p, w, h))
    (hwrap : env.bridge.PyCUDA_RegisterImage p w h IMAGE_RGBA32F true = some handle) :
    PyImageIO_LoadRGBA env call
      = (some (.tuple [handle, .long w, .long h]),
         [.loadImageRGBA filename (some (p, w, h)),
          .PyCUDA_RegisterImage p w h IMAGE_RGBA32F true (some handle),
          .Py_DECREF handle, .Py_DECREF (.long w), .Py_DECREF (.long h)]) := by
  simp [PyImageIO_LoadRGBA, hparse, hload, hwrap, PyTuple_Pack, PYLONG_FROM_LONG]

/-- C8, as stated, fails: over a bridge whose PyCUDA_RegisterImage hands out no handle the
decoder succeeds on "x.png" with buffer 4096, width 4 and height 2, PyCUDA_RegisterImage is
called with exactly these, and PyImageIO_LoadRGBA returns NULL, not a triple. -/
theorem LoadRGBA_decoded_counterexample :
    sampleEnvNoHandle.PyArg_ParseTuple ⟨[.str "x.png"], []⟩ = some "x.png" ∧
    sampleEnvNoHandle.loadImageRGBA "x.png" = some (4096, 4, 2) ∧
    PyImageIO_LoadRGBA sampleEnvNoHandle ⟨[.str "x.png"], []⟩
      = (none, [.loadImageRGBA "x.png" (some (4096, 4, 2)),
                .PyCUDA_RegisterImage 4096 4 2 IMAGE_RGBA32F true none]) :=
  ⟨rfl, rfl, rfl⟩

/-- C8, amended: when the decoder succeeds on the parsed path with buffer p, width w and
height h and PyCUDA_RegisterImage returns a handle for (p, w, h, IMAGE_RGBA32F, true),
which is its only call, PyImageIO_LoadRGBA returns the triple (handle, w, h); over the
bridge of the specification PyCUDA_GetImage of that handle yields pointer p, width w,
height h and the format IMAGE_RGBA32F, which is FORMAT_RGBA32, the default format. -/
theorem LoadRGBA_returns_wrapped_triple (env : Env) (call : PyArgs) (filename : String)
    (p : Ptr) (w h : Int) (handle : PyObject)
    (hparse : env.PyArg_ParseTuple call = some filename)
    (hload : env.loadImageRGBA filename = some (p, w, h))
    (hwrap : env.bridge.PyCUDA_RegisterImage p w h IMAGE_RGBA32F true = some handle) :
    (PyImageIO_LoadRGBA env call).1 = some (.tuple [handle, .long w, .long h]) ∧
    registerCalls (PyImageIO_LoadRGBA env call).2
      = [.PyCUDA_RegisterImage p w h IMAGE_RGBA32F true (some handle)] ∧
    (env.bridge = specBridge →
      env.bridge.PyCUDA_GetImage handle = some ⟨⟨p, true⟩, w, h, IMAGE_RGBA32F⟩) ∧
    IMAGE_RGBA32F = FORMAT_RGBA32 ∧ IMAGE_RGBA32F = FORMAT_DEFAULT := by
  rw [LoadRGBA_of_register_some env call filename p w h handle hparse hload hwrap]
  refine ⟨rfl, by simp [registerCalls], ?_, rfl, rfl⟩
  intro hb
  rw [hb] at hwrap ⊢
  simp only [specBridge, PyCUDA_RegisterImage, Option.some.injEq] at hwrap
  subst hwrap
  rfl

theorem LoadRGBA_returns_wrapped_triple_witness :
    sampleEnv.PyArg_ParseTuple ⟨[.str "x.png"], []⟩ = some "x.png" ∧
    sampleEnv.loadImageRGBA "x.png" = some (4096, 4, 2) ∧
    sampleEnv.bridge.PyCUDA_RegisterImage 4096 4 2 IMAGE_RGBA32F true = some sampleImage ∧
    (PyImageIO_LoadRGBA sampleEnv ⟨[.str "x.png"], []⟩).1
      = some (.tuple [sampleImage, .long 4, .long 2]) ∧
    sampleEnv.bridge.PyCUDA_GetImage sampleImage
      = some ⟨⟨4096, true⟩, 4, 2, IMAGE_RGBA32F⟩ :=
  ⟨rfl, rfl, rfl,
   (LoadRGBA_returns_wrapped_triple sampleEnv ⟨[.str "x.png"], []⟩ "x.png" 4096 4 2
     sampleImage rfl rfl rfl).1,
   (LoadRGBA_returns_wrapped_triple sampleEnv ⟨[.str "x.png"], []⟩ "x.png" 4096 4 2
     sampleImage rfl rfl rfl).2.2.1 rfl⟩

/-- C9: PyImageIO_LoadRGBA returns either a triple (handle, width, height) whose handle is
the one handle PyCUDA_RegisterImage gave out, or NULL with no handle given out; when the
decoder reports failure PyCUDA_RegisterImage is never called, and when
PyCUDA_RegisterImage returns no handle the result is NULL. -/
theorem LoadRGBA_all_or_nothing (env : Env) (call : PyArgs) :
    ((∃ handle w h, (PyImageIO_LoadRGBA env call).1 = some (.tuple [handle, .long w, .long h])
        ∧ published (PyImageIO_LoadRGBA env call).2 = [handle]) ∨
     ((PyImageIO_LoadRGBA env call).1 = none ∧ published (PyImageIO_LoadRGBA env call).2 = []))
    ∧
    (∀ filename, env.PyArg_ParseTuple call = some filename →
      env.loadImageRGBA filename = none →
      (PyImageIO_LoadRGBA env call).1 = none ∧
      registerCalls (PyImageIO_LoadRGBA env call).2 = []) ∧
    (∀ filename p w h, env.PyArg_ParseTuple call = some filename →
      env.loadImageRGBA filename = some (p, w, h) →
      env.bridge.PyCUDA_RegisterImage p w h IMAGE_RGBA32F true = none →
      (PyImageIO_LoadRGBA env call).1 = none) := by
  refine ⟨?_, ?_, ?_⟩
  · cases hparse : env.PyArg_ParseTuple call with
    | none => simp [LoadRGBA_of_parse_none env call hparse, published]
    | some filename =>
      cases hload : env.loadImageRGBA filename with
      | none => simp [LoadRGBA_of_load_none env call filename hparse hload, published]
      | some r =>
        obtain ⟨p, w, h⟩ := r
        cases hwrap : env.bridge.PyCUDA_RegisterImage p w h IMAGE_RGBA32F true with
        | none =>
          simp [LoadRGBA_of_register_none env call filename p w h hparse hload hwrap,
            published]
        | some handle =>
          left
          refine ⟨handle, w, h, ?_⟩
          simp [LoadRGBA_of_register_some env call filename p w h handle hparse hload hwrap,
            published]
  · intro filename hparse hload
    simp [LoadRGBA_of_load_none env call filename hparse hload, registerCalls]
  · intro filename p w h hparse hload hwrap
    simp [LoadRGBA_of_register_none env call filename p w h hparse hload hwrap]

theorem LoadRGBA_all_or_nothing_witness :
    sampleEnv.PyArg_ParseTuple ⟨[.str "missing.png"], []⟩ = some "missing.png" ∧
    sampleEnv.loadImageRGBA "missing.png" = none ∧
    ((PyImageIO_LoadRGBA sampleEnv ⟨[.str "missing.png"], []⟩).1 = none ∧
     registerCalls (PyImageIO_LoadRGBA sampleEnv ⟨[.str "missing.png"], []⟩).2 = []) :=
  ⟨rfl, rfl,
   (LoadRGBA_all_or_nothing sampleEnv ⟨[.str "missing.png"], []⟩).2.1 "missing.png"
     rfl rfl⟩

end JetsonUtils
